import Mathlib

/-!
Verification development for the Stock-News repository.

The repository contains two variants of a news fetch-and-filter service:

* the hardened variant, `src/config.py` and `src/news_service.py`
  (`fetch_filtered_news`), which raises descriptive errors on transport
  failures and malformed top-level payloads; and
* the permissive "Stock" variant, `src/Stock/config.py` and
  `src/Stock/news_service.py` (`fetch_stock_news`), which catches every
  exception and degrades to an empty list, and substitutes placeholder
  strings for missing fields.

The Python functions are shallowly embedded below.  JSON values are
modelled by the inductive type `Json`; Python `None` is `Json.null`,
and a `dict.get` miss is also represented by `Json.null`, exactly as the
Python code observes it.  The outcome of the single outbound HTTP call
is made an explicit input (`HttpOutcome`), and exceptions are modelled
with `Except`.  `datetime.utcnow()` is passed in explicitly as a
`PyDateTime` value.  String lowering models Python `str.lower()` on the
ASCII range, which covers every keyword and every input appearing in
the theorems below.
-/

/-- ASCII lowering of one character, as Python `str.lower()` acts on the
ASCII range (all configured keywords and all concrete inputs used in the
theorems are ASCII). -/
def lowerChar (c : Char) : Char :=
  if 65 ≤ c.toNat ∧ c.toNat ≤ 90 then Char.ofNat (c.toNat + 32) else c

/-- Python `s.lower()` (ASCII range). -/
def toLowerAscii (s : String) : String :=
  String.mk (s.data.map lowerChar)

/-- List-of-characters prefix test (used to model Python substring `in`). -/
def listIsPrefixOf : List Char → List Char → Bool
  | [], _ => true
  | _ :: _, [] => false
  | a :: as, b :: bs => a == b && listIsPrefixOf as bs

/-- Substring containment on character lists: `needle` occurs somewhere in
the haystack.  The empty needle occurs everywhere, as in Python. -/
def listContainsSub (needle : List Char) : List Char → Bool
  | [] => needle.isEmpty
  | c :: rest => listIsPrefixOf needle (c :: rest) || listContainsSub needle rest

/-- Python `needle in hay` for strings. -/
def pyInStr (needle hay : String) : Bool :=
  listContainsSub needle.data hay.data

/-- Python `sep.join(parts)`. -/
def pyJoin (sep : String) : List String → String
  | [] => ""
  | [x] => x
  | x :: rest => x ++ sep ++ pyJoin sep rest

/-- JSON values as delivered by `response.json()`.  Numbers are modelled
as integers, which covers every value the theorems below evaluate. -/
inductive Json where
  | null
  | bool (b : Bool)
  | num (n : Int)
  | str (s : String)
  | arr (xs : List Json)
  | obj (kvs : List (String × Json))

/-- Python truthiness of a JSON value. -/
def pyTruthy : Json → Bool
  | .null => false
  | .bool b => b
  | .num n => n != 0
  | .str s => !s.isEmpty
  | .arr xs => !xs.isEmpty
  | .obj kvs => !kvs.isEmpty

/-- `isinstance(v, dict)`. -/
def isDictB : Json → Bool
  | .obj _ => true
  | _ => false

/-- `isinstance(v, list)`. -/
def isArrB : Json → Bool
  | .arr _ => true
  | _ => false

/-- `d.get(k)`: the value under the first matching key, or Python `None`
(modelled as `Json.null`) when the key is absent. -/
def pyGet (kvs : List (String × Json)) (k : String) : Json :=
  match kvs.find? (fun kv => kv.1 == k) with
  | some kv => kv.2
  | none => .null

/-- `d.get(k, default)`. -/
def pyGetD (kvs : List (String × Json)) (k : String) (d : Json) : Json :=
  match kvs.find? (fun kv => kv.1 == k) with
  | some kv => kv.2
  | none => d

/-- Whether a Python dict has a key (`k in d`). -/
def pyHasKey (kvs : List (String × Json)) (k : String) : Bool :=
  (kvs.find? (fun kv => kv.1 == k)).isSome

def apos : String := String.singleton (Char.ofNat 39)

mutual

/-- Python `repr` of a JSON value (string elements of containers are
rendered with quotes, exactly as `str(list)`/`str(dict)` shows them).
String escaping inside `repr` is not modelled; no theorem below
evaluates `pyRepr` on a string containing a quote or backslash. -/
def pyRepr : Json → String
  | .null => "None"
  | .bool true => "True"
  | .bool false => "False"
  | .num n => toString n
  | .str s => apos ++ s ++ apos
  | .arr xs => "[" ++ pyReprList xs ++ "]"
  | .obj kvs => "\x7b" ++ pyReprObj kvs ++ "\x7d"

/-- Comma-separated `repr`s of list elements. -/
def pyReprList : List Json → String
  | [] => ""
  | [x] => pyRepr x
  | x :: rest => pyRepr x ++ ", " ++ pyReprList rest

/-- Comma-separated `repr`s of dict items. -/
def pyReprObj : List (String × Json) → String
  | [] => ""
  | [kv] => apos ++ kv.1 ++ apos ++ ": " ++ pyRepr kv.2
  | kv :: rest => apos ++ kv.1 ++ apos ++ ": " ++ pyRepr kv.2 ++ ", " ++ pyReprObj rest

end

/-- Python `str(v)` for a JSON value. -/
def pyStr : Json → String
  | .str s => s
  | j => pyRepr j

/-! ## Hardened variant: `src/news_service.py` and `src/config.py` -/

/-- `FILTER_KEYWORDS` from `src/news_service.py`. -/
def FILTER_KEYWORDS : List String :=
  ["stock", "stocks", "share market", "sensex", "nifty", "market",
   "earnings", "quarter results"]

/-- `_extract_source_name` from `src/news_service.py`: `None` for a null
source, `source.get('name')` for a dict, `None` for any other type.
It is a total function, so extraction never raises. -/
def extract_source_name : Json → Json
  | .null => .null
  | .obj kvs => pyGet kvs "name"
  | _ => .null

/-- The loop of `_safe_get_text`: collect the values of the given keys
that are strings (`value is not None and isinstance(value, str)`). -/
def collectTextParts (kvs : List (String × Json)) : List String → List String
  | [] => []
  | k :: ks =>
    match pyGet kvs k with
    | .str s => s :: collectTextParts kvs ks
    | _ => collectTextParts kvs ks

/-- `_safe_get_text` from `src/news_service.py`:
`' '.join(text_parts).lower()`. -/
def safe_get_text (kvs : List (String × Json)) (keys : List String) : String :=
  toLowerAscii (pyJoin " " (collectTextParts kvs keys))

/-- `_matches_keywords` from `src/news_service.py`. -/
def matches_keywords (text : String) (keywords : List String) : Bool :=
  if text == "" then false
  else keywords.any (fun kw => pyInStr (toLowerAscii kw) text)

/-- The summary dict built by `fetch_filtered_news` per matching article.
Each field is the raw JSON value (Python `None` is `Json.null`). -/
structure Summary where
  title : Json
  date : Json
  source : Json
  description : Json
  url : Json

/-- The dict literal appended by `fetch_filtered_news` for a matching
article. -/
def mkSummary (kvs : List (String × Json)) : Summary :=
  { title := pyGet kvs "title"
    date := pyGet kvs "publishedAt"
    source := extract_source_name (pyGet kvs "source")
    description := pyGet kvs "description"
    url := pyGet kvs "url" }

/-- The keyword test `fetch_filtered_news` applies to one article dict. -/
def articleMatches (kvs : List (String × Json)) : Bool :=
  matches_keywords (safe_get_text kvs ["title", "description"]) FILTER_KEYWORDS

/-- The `for article in articles` loop of `fetch_filtered_news`, with the
accumulator `filtered` made explicit.  A non-dict element is skipped
(`continue`); a matching dict appends its summary. -/
def processLoop (acc : List Summary) : List Json → List Summary
  | [] => acc
  | a :: rest =>
    match a with
    | .obj kvs =>
      if articleMatches kvs then processLoop (acc ++ [mkSummary kvs]) rest
      else processLoop acc rest
    | _ => processLoop acc rest

/-- The article-processing phase of `fetch_filtered_news`, starting from
`filtered = []`. -/
def processArticles (articles : List Json) : List Summary :=
  processLoop [] articles

/-- Outcome of the body of an HTTP response: `response.json()` either
fails to decode or yields a JSON value. -/
inductive BodyOutcome where
  | invalidJson
  | json (data : Json)

/-- Outcome of `requests.get`: either a raised `requests.RequestException`
(connection error, timeout, ...) or a delivered response with a status
code and a body. -/
inductive HttpOutcome where
  | netError
  | response (status : Nat) (body : BodyOutcome)

/-- The exceptions `fetch_filtered_news` can propagate: a
`requests.RequestException` (from `requests.get` or `raise_for_status`),
a JSON decode error from `response.json()` (re-raised by either `except`
arm, since it is both a `RequestException` and a `ValueError` depending
on the requests version), or one of the two explicit `ValueError`s. -/
inductive FetchError where
  | requestError
  | jsonDecodeError
  | valueError (msg : String)

/-- `fetch_filtered_news` from `src/news_service.py`, as a function of the
outcome of its single outbound call.  `response.raise_for_status()`
raises exactly for status codes in `[400, 600)`.  Both `except` arms
re-raise, so every internal exception reaches the caller. -/
def fetch_filtered_news (o : HttpOutcome) : Except FetchError (List Summary) :=
  match o with
  | .netError => .error .requestError
  | .response status body =>
    if 400 ≤ status ∧ status < 600 then .error .requestError
    else
      match body with
      | .invalidJson => .error .jsonDecodeError
      | .json data =>
        match data with
        | .obj kvs =>
          match pyGetD kvs "articles" (.arr []) with
          | .arr articles => .ok (processArticles articles)
          | _ => .error (.valueError "Invalid articles format: expected list")
        | _ => .error (.valueError "Invalid API response format: expected dict")

/-- `src/config.py`: `NEWS_API_KEY = os.getenv('NEWS_API_KEY')` followed by
`if not NEWS_API_KEY: raise ValueError(...)`.  The environment lookup is
the explicit `Option String` argument (`none` = variable absent). -/
def news_api_key_main (env : Option String) : Except String String :=
  match env with
  | none => .error "NEWS_API_KEY environment variable not set."
  | some s =>
    if s.isEmpty then .error "NEWS_API_KEY environment variable not set."
    else .ok s

/-- `src/Stock/config.py`:
`NEWS_API_KEY = os.environ.get('NEWS_API_KEY', '96253f376c4c4e0ea111e78676cf3de3')`
followed by the same truthiness check. -/
def news_api_key_stock (env : Option String) : Except String String :=
  match env.getD "96253f376c4c4e0ea111e78676cf3de3" with
  | s =>
    if s.isEmpty then .error "NEWS_API_KEY environment variable not set."
    else .ok s

/-! ## Permissive variant: `src/Stock/news_service.py` and `src/Stock/config.py` -/

/-- `KEYWORDS` from `src/Stock/news_service.py`. -/
def KEYWORDS : List String := ["stock"]

/-- A naive `datetime` value as produced by `datetime.utcnow()` or
`datetime.strptime`. -/
structure PyDateTime where
  year : Nat
  month : Nat
  day : Nat
  hour : Nat
  minute : Nat
  second : Nat

/-- Gregorian leap-year test. -/
def isLeapYear (y : Nat) : Bool :=
  y % 4 == 0 && (y % 100 != 0 || y % 400 == 0)

/-- Length of a month. -/
def daysInMonth (y m : Nat) : Nat :=
  if m = 2 then (if isLeapYear y then 29 else 28)
  else if m = 4 ∨ m = 6 ∨ m = 9 ∨ m = 11 then 30
  else 31

/-- Days in the months of year `y` strictly before month `m`. -/
def daysBeforeMonth (y m : Nat) : Nat :=
  (List.range (m - 1)).foldl (fun acc i => acc + daysInMonth y (i + 1)) 0

/-- Proleptic-Gregorian ordinal of a date (day 1 = 0001-01-01), as in
Python's `datetime.toordinal`. -/
def toOrdinal (y m d : Nat) : Nat :=
  365 * (y - 1) + (y - 1) / 4 - (y - 1) / 100 + (y - 1) / 400
    + daysBeforeMonth y m + d

/-- Total seconds of a naive datetime, for forming differences. -/
def toSecs (dt : PyDateTime) : Int :=
  86400 * (toOrdinal dt.year dt.month dt.day : Int)
    + 3600 * (dt.hour : Int) + 60 * (dt.minute : Int) + (dt.second : Int)

/-- `timedelta.days` of the difference `a - b` of two datetimes given in
seconds: Python floor division by 86400. -/
def tdDays (a b : Int) : Int :=
  Int.fdiv (a - b) 86400

/-- Value of a digit run: its numeric value, its length, and the rest of
the input. -/
def parseNatRun (cs : List Char) : Nat × Nat × List Char :=
  let ds := cs.takeWhile (fun c => c.isDigit)
  (ds.foldl (fun a c => a * 10 + (c.toNat - 48)) 0, ds.length,
   cs.dropWhile (fun c => c.isDigit))

/-- `datetime.strptime(s, "%Y-%m-%dT%H:%M:%SZ")`, returning `none` where
Python raises `ValueError`.  `%Y` demands exactly four digits; the other
fields take one or two digits (each is terminated by a literal
delimiter, so the regex backtracking of `_strptime` coincides with
reading the whole digit run); `%S` admits 60/61 syntactically but the
`datetime` constructor then rejects seconds above 59, and it also
rejects a day beyond the month's length and year 0, so those inputs
yield `none` overall. -/
def strptimeYmdhmsZ (s : String) : Option PyDateTime :=
  match parseNatRun s.data with
  | (y, ly, r0) =>
    if ly ≠ 4 then none else
    match r0 with
    | '-' :: r1 =>
      match parseNatRun r1 with
      | (mo, lm, r2) =>
        if lm = 0 ∨ lm > 2 ∨ mo < 1 ∨ mo > 12 then none else
        match r2 with
        | '-' :: r3 =>
          match parseNatRun r3 with
          | (d, ld, r4) =>
            if ld = 0 ∨ ld > 2 ∨ d < 1 ∨ d > 31 then none else
            match r4 with
            | 'T' :: r5 =>
              match parseNatRun r5 with
              | (h, lh, r6) =>
                if lh = 0 ∨ lh > 2 ∨ h > 23 then none else
                match r6 with
                | ':' :: r7 =>
                  match parseNatRun r7 with
                  | (mi, lmi, r8) =>
                    if lmi = 0 ∨ lmi > 2 ∨ mi > 59 then none else
                    match r8 with
                    | ':' :: r9 =>
                      match parseNatRun r9 with
                      | (sec, ls, r10) =>
                        if ls = 0 ∨ ls > 2 ∨ sec > 59 then none else
                        match r10 with
                        | ['Z'] =>
                          if d > daysInMonth y mo ∨ y < 1 then none
                          else some ⟨y, mo, d, h, mi, sec⟩
                        | _ => none
                    | _ => none
                | _ => none
            | _ => none
        | _ => none
    | _ => none

/-- The `date_type` computation of `fetch_stock_news`: defaults to
"Publish Date"; when `article_date` is a truthy string of length at
least 10 that `strptime` parses, and the parsed date is less than one
day before `now` (`(datetime.utcnow() - pub_date).days < 1`), it becomes
"Recently Published Date".  A `strptime` failure is swallowed by the
bare `except`. -/
def stockDateType (now : PyDateTime) (article_date : Json) : String :=
  match article_date with
  | .str s =>
    if !s.isEmpty ∧ s.length ≥ 10 then
      match strptimeYmdhmsZ s with
      | some pub => if tdDays (toSecs now) (toSecs pub) < 1 then "Recently Published Date" else "Publish Date"
      | none => "Publish Date"
    else "Publish Date"
  | _ => "Publish Date"

/-- The `title` / `description` normalization of `fetch_stock_news`:
start from `""` and overwrite with `str(value)` when the raw value is
truthy. -/
def stockFieldText (kvs : List (String × Json)) (k : String) : String :=
  if pyTruthy (pyGet kvs k) then pyStr (pyGet kvs k) else ""

/-- `search_text` of `fetch_stock_news`:
`(title + " " + description).lower()`. -/
def stockSearchText (kvs : List (String × Json)) : String :=
  toLowerAscii (stockFieldText kvs "title" ++ " " ++ stockFieldText kvs "description")

/-- The keyword loop of `fetch_stock_news` (`break` on first hit). -/
def stockHasKeyword (kvs : List (String × Json)) : Bool :=
  KEYWORDS.any (fun kw => pyInStr (toLowerAscii kw) (stockSearchText kvs))

/-- The `source_name` computation of `fetch_stock_news`: "Unknown Source"
unless the `source` value is a truthy dict, in which case
`source_obj.get("name", "Unknown Source")`. -/
def stockSourceName (source_obj : Json) : Json :=
  match source_obj with
  | .obj skvs =>
    if pyTruthy (.obj skvs) then pyGetD skvs "name" (.str "Unknown Source")
    else .str "Unknown Source"
  | _ => .str "Unknown Source"

/-- The dict appended by `fetch_stock_news` per matching article. -/
structure StockSummary where
  title : String
  date : Json
  source : Json
  description : String
  url : Json
  date_type : String

/-- Field extraction of `fetch_stock_news` for one matching article. -/
def stockMkSummary (now : PyDateTime) (kvs : List (String × Json)) : StockSummary :=
  { title := if (stockFieldText kvs "title").isEmpty then "No Title Available"
             else stockFieldText kvs "title"
    date := pyGetD kvs "publishedAt" (.str "")
    source := stockSourceName (pyGet kvs "source")
    description := if (stockFieldText kvs "description").isEmpty then "No description available"
                   else stockFieldText kvs "description"
    url := pyGetD kvs "url" (.str "#")
    date_type := stockDateType now (pyGetD kvs "publishedAt" (.str "")) }

/-- The `for article in articles` loop of `fetch_stock_news`: skip an
element that is falsy or not a dict; append a summary when the keyword
test succeeds. -/
def stockLoop (now : PyDateTime) (acc : List StockSummary) : List Json → List StockSummary
  | [] => acc
  | a :: rest =>
    match a with
    | .obj kvs =>
      if pyTruthy (.obj kvs) then
        if stockHasKeyword kvs then stockLoop now (acc ++ [stockMkSummary now kvs]) rest
        else stockLoop now acc rest
      else stockLoop now acc rest
    | _ => stockLoop now acc rest

/-- The article-processing phase of `fetch_stock_news`. -/
def stockProcessArticles (now : PyDateTime) (articles : List Json) : List StockSummary :=
  stockLoop now [] articles

/-- Exceptions that can arise inside the `try` block of
`fetch_stock_news` (all are swallowed by `except Exception`). -/
inductive PyErr where
  | requestErr
  | jsonErr
  | typeError
  | attributeError

/-- Python `'articles' in data` for an arbitrary JSON value: key lookup
for a dict, element equality for a list (a non-string element never
equals a string), substring test for a string, `TypeError` otherwise. -/
def pyContainsKey (needle : String) : Json → Except PyErr Bool
  | .obj kvs => .ok (pyHasKey kvs needle)
  | .arr xs => .ok (xs.any (fun x => match x with | .str s => s == needle | _ => false))
  | .str s => .ok (pyInStr needle s)
  | _ => .error .typeError

/-- Python iteration `for article in articles` over an arbitrary JSON
value: a list yields its elements, a string its one-character strings, a
dict its keys; other values raise `TypeError`. -/
def pyIter : Json → Except PyErr (List Json)
  | .arr xs => .ok xs
  | .str s => .ok (s.data.map (fun c => .str (String.singleton c)))
  | .obj kvs => .ok (kvs.map (fun kv => .str kv.1))
  | _ => .error .typeError

/-- The `try` block of `fetch_stock_news`, as a function of the outcome
of the outbound call: `requests.get` may raise; `raise_for_status`
raises for statuses in `[400, 600)`; `response.json()` may fail;
`if 'articles' not in data: return []`; `data.get("articles", [])`
(an `AttributeError` when `data` is not a dict);
`if not articles: return []`; then the filtering loop. -/
def stockBody (now : PyDateTime) (o : HttpOutcome) : Except PyErr (List StockSummary) :=
  match o with
  | .netError => .error .requestErr
  | .response status body =>
    if 400 ≤ status ∧ status < 600 then .error .requestErr
    else
      match body with
      | .invalidJson => .error .jsonErr
      | .json data =>
        match pyContainsKey "articles" data with
        | .error e => .error e
        | .ok c =>
          if !c then .ok []
          else
            match data with
            | .obj kvs =>
              let articles := pyGetD kvs "articles" (.arr [])
              if !(pyTruthy articles) then .ok []
              else
                match pyIter articles with
                | .error e => .error e
                | .ok items => .ok (stockProcessArticles now items)
            | _ => .error .attributeError

/-- `fetch_stock_news` from `src/Stock/news_service.py`: the `try` body
with `except Exception: return []` wrapped around it, so the function is
total and always returns a list. -/
def fetch_stock_news (now : PyDateTime) (o : HttpOutcome) : List StockSummary :=
  match stockBody now o with
  | .ok l => l
  | .error _ => []

/-! ## Claim-side definitions

Definitions in this section follow the words of the spec's claims (they
are the objects the claim theorems compare against the source-derived
definitions above). -/

/-- A JSON text value, with any other value read as the empty string. -/
def strOrEmpty : Json → String
  | .str s => s
  | _ => ""

/-- C1/C5 as literally stated: the lowercase plain (separator-free)
concatenation of the title and description fields, missing or non-text
values contributing the empty string. -/
def claimHaystackMainOrig (kvs : List (String × Json)) : String :=
  toLowerAscii (strOrEmpty (pyGet kvs "title") ++ strOrEmpty (pyGet kvs "description"))

/-- The keyword predicate of C1 as literally stated, over the plain
concatenation haystack. -/
def claimPredC1Orig : Json → Bool
  | .obj kvs => FILTER_KEYWORDS.any (fun kw => pyInStr kw (claimHaystackMainOrig kvs))
  | _ => false

/-- Amended haystack for the hardened variant: the string-valued fields
among title and description, lowercased, joined by a single space when
both are present. -/
def claimHaystackMain (kvs : List (String × Json)) : String :=
  match pyGet kvs "title", pyGet kvs "description" with
  | .str t, .str d => toLowerAscii (t ++ " " ++ d)
  | .str t, _ => toLowerAscii t
  | _, .str d => toLowerAscii d
  | _, _ => ""

/-- Amended keyword predicate for the hardened variant (C1): some
configured keyword occurs in the space-joined lowercase haystack. -/
def claimPredC1 : Json → Bool
  | .obj kvs => FILTER_KEYWORDS.any (fun kw => pyInStr kw (claimHaystackMain kvs))
  | _ => false

/-- Amended haystack for the Stock variant: title and description each
taken as `str(value)` when the value is truthy and as the empty string
otherwise, joined by a single space, lowercased. -/
def claimHaystackStock (kvs : List (String × Json)) : String :=
  toLowerAscii ((if pyTruthy (pyGet kvs "title") then pyStr (pyGet kvs "title") else "")
    ++ " "
    ++ (if pyTruthy (pyGet kvs "description") then pyStr (pyGet kvs "description") else ""))

/-- Amended keyword predicate for the Stock variant (C1). -/
def claimPredC1Stock : Json → Bool
  | .obj kvs => KEYWORDS.any (fun kw => pyInStr kw (claimHaystackStock kvs))
  | _ => false

/-- The per-article inclusion test of `fetch_filtered_news`, as a
predicate on arbitrary sequence elements (false for non-dicts). -/
def matchesJ : Json → Bool
  | .obj kvs => articleMatches kvs
  | _ => false

/-- The summary of an arbitrary sequence element (only applied to dicts;
placed after the dict filter). -/
def summaryOf : Json → Summary
  | .obj kvs => mkSummary kvs
  | _ => { title := .null, date := .null, source := .null, description := .null, url := .null }

/-- The per-article inclusion test of `fetch_stock_news` (a falsy or
non-dict element is skipped). -/
def stockMatchesJ : Json → Bool
  | .obj kvs => pyTruthy (.obj kvs) && stockHasKeyword kvs
  | _ => false

/-- The Stock summary of an arbitrary sequence element. -/
def stockSummaryOf (now : PyDateTime) : Json → StockSummary
  | .obj kvs => stockMkSummary now kvs
  | _ => { title := "", date := .null, source := .null, description := "", url := .null, date_type := "" }

/-- The condition of C4 on a `source` value as the Python function
receives it: null (which also encodes an absent field), not a mapping,
or a mapping without a "name" key. -/
def sourceNameless (v : Json) : Prop :=
  match v with
  | .obj kvs => pyHasKey kvs "name" = false
  | _ => True

/-- The exact API response of C3:
`{"articles": [{"title": "Stock market rises", "publishedAt": "2026-01-19T10:00:00Z"}]}`
delivered with status 200. -/
def c3Response : HttpOutcome :=
  .response 200 (.json (.obj [("articles",
    .arr [.obj [("title", .str "Stock market rises"),
                ("publishedAt", .str "2026-01-19T10:00:00Z")]])]))

/-- A fixed evaluation instant for closed Stock-variant computations. -/
def now0 : PyDateTime := ⟨2026, 1, 20, 10, 0, 0⟩

/-! ## Helper lemmas -/

theorem processLoop_eq (l : List Json) :
    ∀ acc : List Summary, processLoop acc l = acc ++ (l.filter matchesJ).map summaryOf := by
  induction l with
  | nil => intro acc; simp [processLoop]
  | cons a rest ih =>
    intro acc
    cases a with
    | obj kvs =>
      by_cases h : articleMatches kvs = true
      · simp [processLoop, h, matchesJ, summaryOf, List.filter_cons, ih]
      · simp only [Bool.not_eq_true] at h
        simp [processLoop, h, matchesJ, List.filter_cons, ih]
    | null => simp [processLoop, matchesJ, List.filter_cons, ih]
    | bool b => simp [processLoop, matchesJ, List.filter_cons, ih]
    | num n => simp [processLoop, matchesJ, List.filter_cons, ih]
    | str s => simp [processLoop, matchesJ, List.filter_cons, ih]
    | arr xs => simp [processLoop, matchesJ, List.filter_cons, ih]

theorem processArticles_eq (l : List Json) :
    processArticles l = (l.filter matchesJ).map summaryOf := by
  simpa [processArticles] using processLoop_eq l []

theorem stockLoop_eq (now : PyDateTime) (l : List Json) :
    ∀ acc : List StockSummary,
      stockLoop now acc l = acc ++ (l.filter stockMatchesJ).map (stockSummaryOf now) := by
  induction l with
  | nil => intro acc; simp [stockLoop]
  | cons a rest ih =>
    intro acc
    cases a with
    | obj kvs =>
      by_cases ht : pyTruthy (.obj kvs) = true
      · by_cases h : stockHasKeyword kvs = true
        · simp [stockLoop, ht, h, stockMatchesJ, stockSummaryOf, List.filter_cons, ih]
        · simp only [Bool.not_eq_true] at h
          simp [stockLoop, ht, h, stockMatchesJ, List.filter_cons, ih]
      · simp only [Bool.not_eq_true] at ht
        simp [stockLoop, ht, stockMatchesJ, List.filter_cons, ih]
    | null => simp [stockLoop, stockMatchesJ, List.filter_cons, ih]
    | bool b => simp [stockLoop, stockMatchesJ, List.filter_cons, ih]
    | num n => simp [stockLoop, stockMatchesJ, List.filter_cons, ih]
    | str s => simp [stockLoop, stockMatchesJ, List.filter_cons, ih]
    | arr xs => simp [stockLoop, stockMatchesJ, List.filter_cons, ih]

theorem stockProcessArticles_eq (now : PyDateTime) (l : List Json) :
    stockProcessArticles now l = (l.filter stockMatchesJ).map (stockSummaryOf now) := by
  simpa [stockProcessArticles] using stockLoop_eq now l []

theorem toLowerAscii_empty : toLowerAscii "" = "" := rfl

theorem haystack_eq_main (kvs : List (String × Json)) :
    safe_get_text kvs ["title", "description"] = claimHaystackMain kvs := by
  unfold safe_get_text claimHaystackMain collectTextParts
  cases h1 : pyGet kvs "title" <;> cases h2 : pyGet kvs "description" <;>
    simp [collectTextParts, h1, h2, pyJoin, toLowerAscii_empty]

theorem list_any_congr (f g : String → Bool) :
    ∀ l : List String, (∀ a ∈ l, f a = g a) → l.any f = l.any g := by
  intro l
  induction l with
  | nil => intro _; rfl
  | cons k ks ih =>
    intro h
    simp only [List.any_cons]
    rw [h k (by simp), ih (fun a ha => h a (by simp [ha]))]

theorem matches_eq_main (text : String) :
    matches_keywords text FILTER_KEYWORDS
      = FILTER_KEYWORDS.any (fun kw => pyInStr kw text) := by
  unfold matches_keywords
  by_cases h : text = ""
  · subst h; decide
  · have hb : (text == "") = false := by simp [h]
    rw [hb]
    simp only [Bool.false_eq_true, if_false]
    refine list_any_congr _ _ FILTER_KEYWORDS ?_
    intro kw hkw
    simp only [FILTER_KEYWORDS, List.mem_cons, List.not_mem_nil, or_false] at hkw
    rcases hkw with rfl | rfl | rfl | rfl | rfl | rfl | rfl | rfl <;> rfl

theorem matchesJ_eq_claim (a : Json) : matchesJ a = (isDictB a && claimPredC1 a) := by
  cases a with
  | obj kvs =>
    simp only [matchesJ, isDictB, claimPredC1, Bool.true_and, articleMatches]
    rw [matches_eq_main, haystack_eq_main]
  | null => rfl
  | bool b => rfl
  | num n => rfl
  | str s => rfl
  | arr xs => rfl

theorem stockSearchText_eq_claim (kvs : List (String × Json)) :
    stockSearchText kvs = claimHaystackStock kvs := rfl

theorem stockHasKeyword_empty : stockHasKeyword [] = false := rfl

theorem stockMatchesJ_eq_claim (a : Json) :
    stockMatchesJ a = (isDictB a && claimPredC1Stock a) := by
  cases a with
  | obj kvs =>
    cases kvs with
    | nil => decide
    | cons kv rest =>
      simp only [stockMatchesJ, isDictB, claimPredC1Stock, Bool.true_and, pyTruthy,
        List.isEmpty_cons, Bool.not_false, stockHasKeyword, KEYWORDS, List.any_cons,
        List.any_nil, Bool.or_false]
      rw [stockSearchText_eq_claim]
      rfl
  | null => rfl
  | bool b => rfl
  | num n => rfl
  | str s => rfl
  | arr xs => rfl

theorem matchesJ_false_of_not_dict (a : Json) (h : isDictB a = false) :
    matchesJ a = false := by
  cases a <;> simp_all [isDictB, matchesJ]

theorem stockMatchesJ_false_of_not_dict (a : Json) (h : isDictB a = false) :
    stockMatchesJ a = false := by
  cases a <;> simp_all [isDictB, stockMatchesJ]

/-! ## Claim theorems -/

/-- C1 (counterexample).  The claim reads the haystack as the plain
(separator-free) lowercase concatenation of title and description.  The
code joins the two fields with a space, so for the article
`{"title": "quarter", "description": "results"}` the code's haystack is
"quarter results", which contains the configured keyword
"quarter results", and the article is included — while the plain
concatenation "quarterresults" contains no configured keyword, so the
claim as stated demands its absence.  Both fields are present strings,
so no reading of the missing-field treatment affects this input. -/
theorem keyword_match_plain_concat_counterexample :
    processArticles [Json.obj [("title", Json.str "quarter"), ("description", Json.str "results")]]
      ≠ (([Json.obj [("title", Json.str "quarter"), ("description", Json.str "results")]].filter
          (fun a => isDictB a && claimPredC1Orig a)).map summaryOf) := by
  intro h
  exact absurd (congrArg List.length h) (by decide)

/-- C1 (amended).  For every parsed articles sequence, the summaries
emitted by the per-article loop are exactly the order-preserving map of
the mapping-typed elements whose *space-joined* lowercase haystack
contains a configured keyword — for the hardened variant the haystack
joins the string-valued title/description fields with a single space,
and for the Stock variant each field is `str(value)` when truthy and
empty otherwise, joined with a single space.  This is the claim's
if-and-only-if at the level of the whole output list. -/
theorem keyword_match_iff_space_joined (articles : List Json) (now : PyDateTime) :
    processArticles articles
        = (articles.filter (fun a => isDictB a && claimPredC1 a)).map summaryOf
      ∧ stockProcessArticles now articles
        = (articles.filter (fun a => isDictB a && claimPredC1Stock a)).map (stockSummaryOf now) := by
  constructor
  · rw [processArticles_eq]
    have hp : matchesJ = fun a => isDictB a && claimPredC1 a := funext matchesJ_eq_claim
    rw [hp]
  · rw [stockProcessArticles_eq]
    have hp : stockMatchesJ = fun a => isDictB a && claimPredC1Stock a :=
      funext stockMatchesJ_eq_claim
    rw [hp]

/-- C5 (counterexample).  For the article
`{"title": "A", "description": "B"}` the code's haystack is "a b"
(space-joined), while the claim's haystack — the lowercase plain
concatenation with missing/non-text as empty — is "ab". -/
theorem haystack_plain_concat_counterexample :
    safe_get_text [("title", Json.str "A"), ("description", Json.str "B")] ["title", "description"]
      ≠ claimHaystackMainOrig [("title", Json.str "A"), ("description", Json.str "B")] := by
  decide

/-- C5 (amended).  For every article mapping, the hardened variant's
keyword haystack equals the lowercase of the string-valued fields among
title and description joined by a single space (missing, null, or
non-text values contribute nothing), and the Stock variant's haystack
equals the lowercase of `str(title)` and `str(description)` (each taken
as empty when the raw value is falsy) joined by a single space.  Both
haystack builders are total Lean functions, so building the haystack
never raises a type error for any field values. -/
theorem haystack_space_joined_eq (kvs : List (String × Json)) :
    safe_get_text kvs ["title", "description"] = claimHaystackMain kvs
      ∧ stockSearchText kvs = claimHaystackStock kvs :=
  ⟨haystack_eq_main kvs, stockSearchText_eq_claim kvs⟩

/-- C7 (confirmed).  For every articles sequence, the returned list of
summaries is exactly the summary map applied to the order-preserving
sublist of matching articles (the code's own per-article predicate), in
both variants: the accumulator loop appends in sequence order and the
service never re-sorts. -/
theorem filtered_output_preserves_order (articles : List Json) (now : PyDateTime) :
    processArticles articles = (articles.filter matchesJ).map summaryOf
      ∧ stockProcessArticles now articles
        = (articles.filter stockMatchesJ).map (stockSummaryOf now) :=
  ⟨processArticles_eq articles, stockProcessArticles_eq now articles⟩

/-- C8 (confirmed).  Inserting a non-mapping element anywhere in the
articles sequence leaves the output of either variant's per-article loop
unchanged: the element is skipped silently, every article before and
after it is still processed, the batch is never aborted, and the
malformed element never contributes to the output. -/
theorem non_mapping_articles_skipped (xs ys : List Json) (junk : Json) (now : PyDateTime)
    (h : isDictB junk = false) :
    processArticles (xs ++ junk :: ys) = processArticles (xs ++ ys)
      ∧ stockProcessArticles now (xs ++ junk :: ys) = stockProcessArticles now (xs ++ ys) := by
  constructor
  · rw [processArticles_eq, processArticles_eq]
    simp [List.filter_append, List.filter_cons, matchesJ_false_of_not_dict junk h]
  · rw [stockProcessArticles_eq, stockProcessArticles_eq]
    simp [List.filter_append, List.filter_cons, stockMatchesJ_false_of_not_dict junk h]

/-- C8 (witness): a raw string sitting between two valid articles is
skipped and both neighbours are still processed. -/
theorem non_mapping_articles_skipped_witness :
    processArticles
        [Json.obj [("title", Json.str "stock rally")], Json.str "malformed entry",
         Json.obj [("title", Json.str "market news")]]
      = processArticles
        [Json.obj [("title", Json.str "stock rally")],
         Json.obj [("title", Json.str "market news")]]
      ∧ stockProcessArticles now0
        [Json.obj [("title", Json.str "stock rally")], Json.str "malformed entry",
         Json.obj [("title", Json.str "market news")]]
      = stockProcessArticles now0
        [Json.obj [("title", Json.str "stock rally")],
         Json.obj [("title", Json.str "market news")]] :=
  non_mapping_articles_skipped
    [Json.obj [("title", Json.str "stock rally")]]
    [Json.obj [("title", Json.str "market news")]]
    (Json.str "malformed entry") now0 rfl

/-- C2 (counterexample).  With the environment variable absent, the Stock
variant's configuration silently resolves to the hardcoded fallback key
instead of failing — directly contradicting "in no variant is a fallback
credential value substituted silently". -/
theorem stock_config_fallback_counterexample :
    news_api_key_stock none = .ok "96253f376c4c4e0ea111e78676cf3de3" := rfl

/-- C2 (amended).  The hardened variant reads the credential from the
environment and fails with the descriptive ValueError whenever the
variable is absent or empty; the Stock variant substitutes a hardcoded
fallback key silently when the variable is absent, and fails only when
the variable is present but empty.  A present non-empty value is used
as-is in both variants. -/
theorem config_resolution_per_variant :
    news_api_key_main none = .error "NEWS_API_KEY environment variable not set."
      ∧ news_api_key_main (some "") = .error "NEWS_API_KEY environment variable not set."
      ∧ (∀ s : String, s ≠ "" → news_api_key_main (some s) = .ok s)
      ∧ news_api_key_stock none = .ok "96253f376c4c4e0ea111e78676cf3de3"
      ∧ news_api_key_stock (some "") = .error "NEWS_API_KEY environment variable not set."
      ∧ (∀ s : String, s ≠ "" → news_api_key_stock (some s) = .ok s) := by
  refine ⟨rfl, rfl, ?_, rfl, rfl, ?_⟩
  · intro s h
    simp [news_api_key_main, String.isEmpty_iff, h]
  · intro s h
    simp [news_api_key_stock, Option.getD, String.isEmpty_iff, h]

/-- C2 (witness): a present, non-empty credential is accepted unchanged
by both variants. -/
theorem config_resolution_per_variant_witness :
    news_api_key_main (some "test-key") = .ok "test-key"
      ∧ news_api_key_stock (some "test-key") = .ok "test-key" :=
  ⟨config_resolution_per_variant.2.2.1 "test-key" (by decide),
   config_resolution_per_variant.2.2.2.2.2 "test-key" (by decide)⟩

/-- C3 (counterexample).  On the claim's exact input, the Stock variant
emits "Unknown Source" as the summary's source rather than a null/absent
value (its description and url are likewise the placeholders
"No description available" and "#"), so the claim's "source,
description, and url are all null/absent" fails for that variant. -/
theorem stock_minimal_article_placeholders_counterexample :
    (fetch_stock_news now0 c3Response).map (fun s => s.source) = [Json.str "Unknown Source"] := rfl

/-- C3 (amended).  On the input
`{"articles": [{"title": "Stock market rises", "publishedAt": "2026-01-19T10:00:00Z"}]}`,
the hardened `fetch_filtered_news` returns exactly one summary with
title "Stock market rises", date "2026-01-19T10:00:00Z", and null
source, description, and url; the Stock variant returns exactly one
summary with the same title but placeholder source "Unknown Source",
placeholder description "No description available", and placeholder url
"#" (its date field equals the literal publishedAt value). -/
theorem minimal_article_summary_per_variant :
    fetch_filtered_news c3Response
        = .ok [{ title := Json.str "Stock market rises",
                 date := Json.str "2026-01-19T10:00:00Z",
                 source := Json.null, description := Json.null, url := Json.null }]
      ∧ ∀ now : PyDateTime,
          (fetch_stock_news now c3Response).map
              (fun s => (s.title, s.date, s.source, s.description, s.url))
            = [("Stock market rises", Json.str "2026-01-19T10:00:00Z",
                Json.str "Unknown Source", "No description available", Json.str "#")] :=
  ⟨rfl, fun _ => rfl⟩

/-- C4 (counterexample).  A matching Stock-variant article without a
source field yields a summary whose source is the placeholder string
"Unknown Source", not a null/absent value. -/
theorem stock_source_placeholder_counterexample :
    (fetch_stock_news now0 (.response 200 (.json (.obj [("articles",
        .arr [.obj [("title", Json.str "stock news")]])])))).map (fun s => s.source)
      = [Json.str "Unknown Source"] := rfl

/-- C4 (amended).  For a source value that is null (which is also how an
absent field reaches the extractor), not a mapping, or a mapping without
a "name" key, the hardened variant's summary source is null and the
Stock variant's is the placeholder "Unknown Source"; both extractors are
total functions, so extraction never raises for any input value. -/
theorem nameless_source_yields_variant_default (v : Json) (h : sourceNameless v) :
    extract_source_name v = Json.null
      ∧ stockSourceName v = Json.str "Unknown Source" := by
  cases v with
  | obj kvs =>
    simp only [sourceNameless] at h
    have hf : kvs.find? (fun kv => kv.1 == "name") = none := by
      cases hf' : kvs.find? (fun kv => kv.1 == "name") with
      | none => rfl
      | some p => rw [pyHasKey, hf'] at h; simp at h
    constructor
    · simp [extract_source_name, pyGet, hf]
    · show (if pyTruthy (Json.obj kvs) = true then pyGetD kvs "name" (Json.str "Unknown Source")
        else Json.str "Unknown Source") = Json.str "Unknown Source"
      split_ifs <;> simp [pyGetD, hf]
  | null => exact ⟨rfl, rfl⟩
  | bool b => exact ⟨rfl, rfl⟩
  | num n => exact ⟨rfl, rfl⟩
  | str s => exact ⟨rfl, rfl⟩
  | arr xs => exact ⟨rfl, rfl⟩

/-- C4 (witness): applying the theorem to a mapping without a "name" key. -/
theorem nameless_source_yields_variant_default_witness :
    extract_source_name (Json.obj [("id", Json.str "bbc")]) = Json.null
      ∧ stockSourceName (Json.obj [("id", Json.str "bbc")]) = Json.str "Unknown Source" :=
  nameless_source_yields_variant_default (Json.obj [("id", Json.str "bbc")]) rfl

/-- C6 (counterexample).  `response.raise_for_status()` raises only for
statuses in `[400, 600)`.  A non-2xx status outside that range — here
304 with a well-formed body — is not a raise: `fetch_filtered_news`
returns the empty list, exactly what the claim says can never happen on
a non-2xx status. -/
theorem status_304_returns_ok_counterexample :
    fetch_filtered_news (.response 304 (.json (.obj [("articles", Json.arr [])])))
      = .ok [] := rfl

/-- C6 (amended).  Every network-level failure of the outbound call and
every response status in `[400, 600)` (the statuses
`raise_for_status` checks) causes `fetch_filtered_news` to raise a
`requests.RequestException` observable by the caller — in particular it
never returns a list for those outcomes.  Statuses below 400 or at 600
and above pass `raise_for_status` unchecked. -/
theorem transport_failure_4xx5xx_raises :
    fetch_filtered_news .netError = .error .requestError
      ∧ ∀ (s : Nat) (b : BodyOutcome), 400 ≤ s → s < 600 →
          fetch_filtered_news (.response s b) = .error .requestError := by
  refine ⟨rfl, ?_⟩
  intro s b h1 h2
  simp [fetch_filtered_news, h1, h2]

/-- C6 (witness): a 404 response raises regardless of its body. -/
theorem transport_failure_4xx5xx_raises_witness :
    fetch_filtered_news (.response 404 .invalidJson) = .error .requestError :=
  transport_failure_4xx5xx_raises.2 404 .invalidJson (by decide) (by decide)

/-- C9 (counterexample).  A 304 status is non-2xx but passes
`raise_for_status`; with a well-formed body containing a matching
article, `fetch_stock_news` returns a non-empty list, contradicting the
claim that every non-2xx status yields the empty list. -/
theorem stock_304_nonempty_counterexample :
    fetch_stock_news now0 (.response 304 (.json (.obj [("articles",
        Json.arr [Json.obj [("title", Json.str "stock")]])])))
      ≠ [] := by
  intro h
  exact absurd (congrArg List.length h) (by decide)

/-- C9 (amended).  `fetch_stock_news` is a total function of the call
outcome (the `except Exception` arm converts every internal error to
`[]`), so the caller always receives a list; network errors, 4xx/5xx
statuses (the ones `raise_for_status` checks), non-JSON bodies, and
non-mapping top-level payloads all yield the empty list.  Statuses
outside `[400, 600)` are not themselves treated as failures. -/
theorem stock_fetch_total_empty_on_failures (now : PyDateTime) :
    fetch_stock_news now .netError = []
      ∧ (∀ (s : Nat) (b : BodyOutcome), 400 ≤ s → s < 600 →
          fetch_stock_news now (.response s b) = [])
      ∧ (∀ s : Nat, ¬(400 ≤ s ∧ s < 600) →
          fetch_stock_news now (.response s .invalidJson) = [])
      ∧ (∀ (s : Nat) (data : Json), ¬(400 ≤ s ∧ s < 600) → isDictB data = false →
          fetch_stock_news now (.response s (.json data)) = []) := by
  refine ⟨rfl, ?_, ?_, ?_⟩
  · intro s b h1 h2
    simp [fetch_stock_news, stockBody, h1, h2]
  · intro s h
    simp [fetch_stock_news, stockBody, h]
  · intro s data h hd
    cases data with
    | null => simp [fetch_stock_news, stockBody, h, pyContainsKey]
    | bool b => simp [fetch_stock_news, stockBody, h, pyContainsKey]
    | num n => simp [fetch_stock_news, stockBody, h, pyContainsKey]
    | str t =>
      cases hc : pyInStr "articles" t <;>
        simp [fetch_stock_news, stockBody, h, pyContainsKey, hc]
    | arr xs =>
      cases hc : xs.any (fun x => match x with | .str t => t == "articles" | _ => false) <;>
        simp [fetch_stock_news, stockBody, h, pyContainsKey, hc]
    | obj kvs => simp [isDictB] at hd

/-- C9 (witness): a 500 status, an undecodable 200 body, and a 200 body
whose JSON is a bare number all produce the empty list. -/
theorem stock_fetch_total_empty_on_failures_witness :
    fetch_stock_news now0 (.response 500 .invalidJson) = []
      ∧ fetch_stock_news now0 (.response 200 .invalidJson) = []
      ∧ fetch_stock_news now0 (.response 200 (.json (Json.num 3))) = [] :=
  ⟨(stock_fetch_total_empty_on_failures now0).2.1 500 .invalidJson (by decide) (by decide),
   (stock_fetch_total_empty_on_failures now0).2.2.1 200 (by decide),
   (stock_fetch_total_empty_on_failures now0).2.2.2 200 (Json.num 3) (by decide) rfl⟩

/-- C10 (confirmed).  In the hardened variant, a successfully delivered,
JSON-decodable mapping without an "articles" key makes
`fetch_filtered_news` return `.ok []` (the `data.get('articles', [])`
default is the empty list, which passes the list check); and the
"Invalid articles format: expected list" ValueError arises only from a
response whose top-level mapping has the "articles" key bound to a
non-list value. -/
theorem missing_articles_key_yields_empty :
    (∀ (s : Nat) (kvs : List (String × Json)), ¬(400 ≤ s ∧ s < 600) →
        kvs.find? (fun kv => kv.1 == "articles") = none →
        fetch_filtered_news (.response s (.json (.obj kvs))) = .ok [])
      ∧ (∀ o : HttpOutcome,
          fetch_filtered_news o = .error (.valueError "Invalid articles format: expected list") →
          ∃ (s : Nat) (kvs : List (String × Json)) (p : String × Json),
            o = .response s (.json (.obj kvs))
              ∧ kvs.find? (fun kv => kv.1 == "articles") = some p
              ∧ isArrB p.2 = false) := by
  constructor
  · intro s kvs h hf
    simp [fetch_filtered_news, h, pyGetD, hf, processArticles, processLoop]
  · intro o h
    cases o with
    | netError => simp [fetch_filtered_news] at h
    | response s b =>
      by_cases hc : 400 ≤ s ∧ s < 600
      · simp [fetch_filtered_news, hc] at h
      · cases b with
        | invalidJson => simp [fetch_filtered_news, hc] at h
        | json data =>
          cases data with
          | obj kvs =>
            cases hf : kvs.find? (fun kv => kv.1 == "articles") with
            | none => simp [fetch_filtered_news, hc, pyGetD, hf] at h
            | some p =>
              cases hp : p.2 with
              | arr xs => simp [fetch_filtered_news, hc, pyGetD, hf, hp] at h
              | null => exact ⟨s, kvs, p, rfl, hf, by simp [isArrB, hp]⟩
              | bool b2 => exact ⟨s, kvs, p, rfl, hf, by simp [isArrB, hp]⟩
              | num n => exact ⟨s, kvs, p, rfl, hf, by simp [isArrB, hp]⟩
              | str t => exact ⟨s, kvs, p, rfl, hf, by simp [isArrB, hp]⟩
              | obj kvs2 => exact ⟨s, kvs, p, rfl, hf, by simp [isArrB, hp]⟩
          | null => simp [fetch_filtered_news, hc] at h
          | bool b2 => simp [fetch_filtered_news, hc] at h
          | num n => simp [fetch_filtered_news, hc] at h
          | str t => simp [fetch_filtered_news, hc] at h
          | arr xs => simp [fetch_filtered_news, hc] at h

/-- C10 (witness): a 200 mapping without "articles" yields `.ok []`, and
the articles-format ValueError produced by `{"articles": 5}` indeed
points back to a present non-list "articles" value. -/
theorem missing_articles_key_yields_empty_witness :
    fetch_filtered_news (.response 200 (.json (.obj [("status", Json.str "ok")]))) = .ok []
      ∧ ∃ (s : Nat) (kvs : List (String × Json)) (p : String × Json),
          HttpOutcome.response 200 (.json (.obj [("articles", Json.num 5)]))
              = .response s (.json (.obj kvs))
            ∧ kvs.find? (fun kv => kv.1 == "articles") = some p
            ∧ isArrB p.2 = false :=
  ⟨missing_articles_key_yields_empty.1 200 [("status", Json.str "ok")] (by decide) rfl,
   missing_articles_key_yields_empty.2
     (.response 200 (.json (.obj [("articles", Json.num 5)]))) rfl⟩
